import Mathlib

/-!
Verification development for the GeminiWatermarkTool core
(`src/core/watermark_engine.cpp`).

Pixel values and opacity values are embedded as rationals (`ℚ`), the
exact-arithmetic idealization of the C++ `float`/`double` computations.
Image buffers are structures carrying dimensions, a channel count and a
total pixel function; `cv::Mat` coordinates are C++ `int`s and are
embedded as `Int` wherever the source computes with them.

The two headers `core/watermark_engine.hpp` and `core/blend_modes.hpp`
are not present in the source tree: the declarations they provide
(`WatermarkPosition::get_position`, `add_watermark_alpha_blend`,
`remove_watermark_alpha_blend`) are modelled from the specification, as
marked in their doc comments.  OpenCV collaborator calls
(`cv::matchTemplate`/`cv::minMaxLoc`, `cv::Sobel` gradient pipelines,
`cv::meanStdDev`, `cv::resize`) are external library functions: the three
statistical measurements are embedded as opaque oracle functions
(`DetectorOracles`), and `cv::resize` is modelled from the spec's stated
semantics (area averaging down, bilinear up).
-/

namespace GWT

/-- An image buffer: `cv::Mat` with `h` rows, `w` columns, `channels`
channels, and pixel values `px y x c` (row, column, channel) as exact
rationals. -/
@[ext] structure Image where
  w : Nat
  h : Nat
  channels : Nat
  px : Nat → Nat → Nat → ℚ

/-- Embedding of `cv::Mat::empty()`: true when the buffer has no pixels. -/
def Image.isEmpty (img : Image) : Bool := img.w = 0 || img.h = 0

/-- An opacity ("alpha") map: a 2-D grid of rational coverage values,
`val y x` at row `y`, column `x` (`CV_32F` single-channel `cv::Mat`). -/
@[ext] structure OMap where
  w : Nat
  h : Nat
  val : Nat → Nat → ℚ

/-- Embedding of `cv::Rect` (int fields in OpenCV; the sizes that occur in
this code base are non-negative, embedded as `Nat`). -/
structure Rect where
  x : Int
  y : Int
  w : Nat
  h : Nat
deriving DecidableEq

/-- `WatermarkSize` enumeration from `core/watermark_engine.hpp`
(`Small` first, so that zero-initialization yields `Small`). -/
inductive WatermarkSize where
  | Small
  | Large
deriving DecidableEq

/-- `WatermarkPosition` value object: margins and logo footprint size
(C++ `int` fields). -/
structure WatermarkPosition where
  margin_right : Int
  margin_bottom : Int
  logo_size : Int
deriving DecidableEq

/-- Modelled from the spec: `WatermarkPosition::get_position` is declared
in the missing header `core/watermark_engine.hpp`; spec section 4.2 gives
`x = width - margin - footprint`, `y = height - margin - footprint`,
anchored to the bottom-right corner, with no clamping to non-negative. -/
def WatermarkPosition.get_position (c : WatermarkPosition) (w h : Int) : Int × Int :=
  (w - c.margin_right - c.logo_size, h - c.margin_bottom - c.logo_size)

/-- `get_watermark_config` (watermark_engine.cpp lines 26-44): Large
placement `{64, 64, 96}` when both dimensions strictly exceed 1024,
otherwise Small placement `{32, 32, 48}`. -/
def get_watermark_config (image_width image_height : Int) : WatermarkPosition :=
  if 1024 < image_width ∧ 1024 < image_height then
    ⟨64, 64, 96⟩
  else
    ⟨32, 32, 48⟩

/-- `get_watermark_size` (watermark_engine.cpp lines 46-53): `Large` only
when BOTH dimensions strictly exceed 1024; `1024×1024` is `Small`. -/
def get_watermark_size (image_width image_height : Int) : WatermarkSize :=
  if 1024 < image_width ∧ 1024 < image_height then
    WatermarkSize.Large
  else
    WatermarkSize.Small

/-- Modelled from the spec: `add_watermark_alpha_blend` is declared in the
missing header `core/blend_modes.hpp`; spec section 4.3: for every pixel
inside the opacity map's extent intersected with the image bounds,
per channel, `output = original*(1 - alpha) + foreground_intensity*alpha`;
pixels of the map falling outside the image bounds are silently skipped.
The composite touches the three colour channels of the (BGR-normalized)
image. -/
def add_watermark_alpha_blend (img : Image) (m : OMap) (pos : Int × Int) (v : ℚ) : Image :=
  { img with px := fun y x c =>
      if pos.1 ≤ (x : Int) ∧ (x : Int) < pos.1 + m.w ∧
         pos.2 ≤ (y : Int) ∧ (y : Int) < pos.2 + m.h ∧
         x < img.w ∧ y < img.h ∧ c < 3 then
        img.px y x c * (1 - m.val ((y : Int) - pos.2).toNat ((x : Int) - pos.1).toNat)
          + v * m.val ((y : Int) - pos.2).toNat ((x : Int) - pos.1).toNat
      else img.px y x c }

/-- Modelled from the spec: `remove_watermark_alpha_blend` is declared in
the missing header `core/blend_modes.hpp`; spec section 4.3: the exact
algebraic inverse `original = (watermarked - foreground_intensity*alpha)
/ (1 - alpha)` on the same intersection rectangle, with no special case
for alpha near 1. -/
def remove_watermark_alpha_blend (img : Image) (m : OMap) (pos : Int × Int) (v : ℚ) : Image :=
  { img with px := fun y x c =>
      if pos.1 ≤ (x : Int) ∧ (x : Int) < pos.1 + m.w ∧
         pos.2 ≤ (y : Int) ∧ (y : Int) < pos.2 + m.h ∧
         x < img.w ∧ y < img.h ∧ c < 3 then
        (img.px y x c - v * m.val ((y : Int) - pos.2).toNat ((x : Int) - pos.1).toNat)
          / (1 - m.val ((y : Int) - pos.2).toNat ((x : Int) - pos.1).toNat)
      else img.px y x c }

/-- The engine state after construction: the two canonical opacity maps
(`alpha_map_small_`, `alpha_map_large_`) and the foreground logo
intensity (`logo_value_`), all immutable after construction. -/
structure WatermarkEngine where
  alpha_map_small : OMap
  alpha_map_large : OMap
  logo_value : ℚ

/-- `WatermarkEngine::get_alpha_map` (watermark_engine.cpp lines 214-216):
ternary select of the canonical map for a size class. -/
def WatermarkEngine.get_alpha_map (e : WatermarkEngine) (size : WatermarkSize) : OMap :=
  if size = WatermarkSize.Small then e.alpha_map_small else e.alpha_map_large

/-- The in-place channel normalization done by remove/add entry points
(watermark_engine.cpp lines 141-145 and analogues): 4-channel images are
converted `BGRA -> BGR` (alpha channel dropped), 1-channel images
`GRAY -> BGR` (the gray value replicated on each channel); 3-channel
images pass through. -/
def ensure_bgr (img : Image) : Image :=
  if img.channels = 4 then { img with channels := 3 }
  else if img.channels = 1 then
    { img with channels := 3, px := fun y x _ => img.px y x 0 }
  else img

/-- `WatermarkEngine::remove_watermark` (watermark_engine.cpp lines
133-169): reject an empty buffer, normalize channels, resolve the size
class from the override or the image geometry, pick the placement config
for the resolved size, and reverse-blend the matching canonical map at
the computed position.  The C++ `throw` is embedded as `Except.error`. -/
def WatermarkEngine.remove_watermark (e : WatermarkEngine) (img : Image)
    (force_size : Option WatermarkSize) : Except String Image :=
  if img.isEmpty then Except.error "Empty image provided" else
  let image := ensure_bgr img
  let size := force_size.getD (get_watermark_size image.w image.h)
  let config : WatermarkPosition :=
    if size = WatermarkSize.Small then ⟨32, 32, 48⟩ else ⟨64, 64, 96⟩
  Except.ok (remove_watermark_alpha_blend image (e.get_alpha_map size)
    (config.get_position image.w image.h) e.logo_value)

/-- `WatermarkEngine::add_watermark` (watermark_engine.cpp lines 172-208):
same orchestration as removal, delegating to the forward blend. -/
def WatermarkEngine.add_watermark (e : WatermarkEngine) (img : Image)
    (force_size : Option WatermarkSize) : Except String Image :=
  if img.isEmpty then Except.error "Empty image provided" else
  let image := ensure_bgr img
  let size := force_size.getD (get_watermark_size image.w image.h)
  let config : WatermarkPosition :=
    if size = WatermarkSize.Small then ⟨32, 32, 48⟩ else ⟨64, 64, 96⟩
  Except.ok (add_watermark_alpha_blend image (e.get_alpha_map size)
    (config.get_position image.w image.h) e.logo_value)

/-- Modelled from the spec: `cv::resize` with `INTER_AREA` (the OpenCV
collaborator; spec section 4.4 "downscaling or equal-size requests use
area averaging").  Each target pixel is the average of the source box it
covers; exact for integer decimation factors, which covers the 96→48
resampling interrogated below. -/
def resize_area (src : OMap) (tw th : Nat) : OMap :=
  ⟨tw, th, fun y x =>
    (∑ j ∈ Finset.range (src.h / th), ∑ i ∈ Finset.range (src.w / tw),
        src.val (y * (src.h / th) + j) (x * (src.w / tw) + i))
      / ((src.w / tw : Nat) * (src.h / th : Nat) : ℚ)⟩

/-- Modelled from the spec: `cv::resize` with `INTER_LINEAR` (the OpenCV
collaborator; spec section 4.4 "Upscaling uses bilinear interpolation").
Pixel-center aligned bilinear interpolation with edge clamping. -/
def resize_linear (src : OMap) (tw th : Nat) : OMap :=
  ⟨tw, th, fun y x =>
    let sx : ℚ := (((x : ℚ) + 1/2) * src.w) / tw - 1/2
    let sy : ℚ := (((y : ℚ) + 1/2) * src.h) / th - 1/2
    let x0 : Int := ⌊sx⌋
    let y0 : Int := ⌊sy⌋
    let fx : ℚ := sx - x0
    let fy : ℚ := sy - y0
    let xi : Int → Nat := fun i => (max 0 (min ((src.w : Int) - 1) i)).toNat
    let yi : Int → Nat := fun j => (max 0 (min ((src.h : Int) - 1) j)).toNat
    (1 - fy) * ((1 - fx) * src.val (yi y0) (xi x0) + fx * src.val (yi y0) (xi (x0 + 1)))
      + fy * ((1 - fx) * src.val (yi (y0 + 1)) (xi x0) + fx * src.val (yi (y0 + 1)) (xi (x0 + 1)))⟩

/-- `WatermarkEngine::create_interpolated_alpha` (watermark_engine.cpp
lines 368-390): the source is always the Large canonical map; a target
equal to the source's dimensions returns a copy of it unchanged, any
other target is resized from it — bilinear when either target dimension
exceeds the source's, area averaging otherwise. -/
def WatermarkEngine.create_interpolated_alpha (e : WatermarkEngine)
    (target_width target_height : Nat) : OMap :=
  if target_width = e.alpha_map_large.w ∧ target_height = e.alpha_map_large.h then
    e.alpha_map_large
  else if e.alpha_map_large.w < target_width ∨ e.alpha_map_large.h < target_height then
    resize_linear e.alpha_map_large target_width target_height
  else
    resize_area e.alpha_map_large target_width target_height

/-- `WatermarkEngine::remove_watermark_custom` (watermark_engine.cpp lines
392-430): reject empty input, normalize channels, then blend with the
canonical Small map for an exact 48×48 region, the canonical Large map
for an exact 96×96 region, and an interpolated map for any other size. -/
def WatermarkEngine.remove_watermark_custom (e : WatermarkEngine) (img : Image)
    (region : Rect) : Except String Image :=
  if img.isEmpty then Except.error "Empty image provided" else
  let image := ensure_bgr img
  if region.w = 48 ∧ region.h = 48 then
    Except.ok (remove_watermark_alpha_blend image e.alpha_map_small
      (region.x, region.y) e.logo_value)
  else if region.w = 96 ∧ region.h = 96 then
    Except.ok (remove_watermark_alpha_blend image e.alpha_map_large
      (region.x, region.y) e.logo_value)
  else
    Except.ok (remove_watermark_alpha_blend image
      (e.create_interpolated_alpha region.w region.h) (region.x, region.y) e.logo_value)

/-- `WatermarkEngine::add_watermark_custom` (watermark_engine.cpp lines
432-468): same selection as custom removal, delegating to the forward
blend. -/
def WatermarkEngine.add_watermark_custom (e : WatermarkEngine) (img : Image)
    (region : Rect) : Except String Image :=
  if img.isEmpty then Except.error "Empty image provided" else
  let image := ensure_bgr img
  if region.w = 48 ∧ region.h = 48 then
    Except.ok (add_watermark_alpha_blend image e.alpha_map_small
      (region.x, region.y) e.logo_value)
  else if region.w = 96 ∧ region.h = 96 then
    Except.ok (add_watermark_alpha_blend image e.alpha_map_large
      (region.x, region.y) e.logo_value)
  else
    Except.ok (add_watermark_alpha_blend image
      (e.create_interpolated_alpha region.w region.h) (region.x, region.y) e.logo_value)

/-- `DetectionResult` (declared in `core/watermark_engine.hpp`): detection
flag, fused confidence, the three per-stage scores, the resolved size
class and the resolved region. -/
structure DetectionResult where
  detected : Bool
  confidence : ℚ
  spatial_score : ℚ
  gradient_score : ℚ
  variance_score : ℚ
  size : WatermarkSize
  region : Rect
deriving DecidableEq

/-- The zero-initialized `DetectionResult result{}` of watermark_engine.cpp
lines 226-231. -/
def zero_result : DetectionResult :=
  ⟨false, 0, 0, 0, 0, WatermarkSize.Small, ⟨0, 0, 0, 0⟩⟩

/-- Modelled from the spec: the three statistical measurements the
detector obtains from the OpenCV collaborator, treated as opaque oracle
functions of the buffers and rectangles they are computed from —
`spatial_peak` is the `cv::minMaxLoc` maximum of the
`cv::matchTemplate`/`TM_CCOEFF_NORMED` map of the grayscale unit-scaled
region against the alpha-map slice (spec: normalized cross-correlation
peak, roughly in [-1,1]); `grad_peak` is the same peak for the two
Sobel gradient-magnitude fields; `stddev_gray` is the `cv::meanStdDev`
standard deviation of the grayscale (0-255 scale) pixels of a rectangle
of the image. -/
structure DetectorOracles where
  spatial_peak : Image → Rect → OMap → Rect → ℚ
  grad_peak : Image → Rect → OMap → Rect → ℚ
  stddev_gray : Image → Rect → ℚ

/-- Embedding of `std::clamp(q, 0.0, 1.0)`. -/
def clamp01 (q : ℚ) : ℚ := if q < 0 then 0 else if 1 < q then 1 else q

/-- Size resolution in `detect_watermark` (watermark_engine.cpp line 238):
the override, or else the geometric classification. -/
def detect_size (img : Image) (force_size : Option WatermarkSize) : WatermarkSize :=
  force_size.getD (get_watermark_size img.w img.h)

/-- Placement config in `detect_watermark` (watermark_engine.cpp line
239): always from the image geometry. -/
def detect_config (img : Image) : WatermarkPosition :=
  get_watermark_config img.w img.h

/-- Candidate top-left position in `detect_watermark` (watermark_engine.cpp
line 240). -/
def detect_pos (img : Image) : Int × Int :=
  (detect_config img).get_position img.w img.h

/-- Alpha map selected in `detect_watermark` (watermark_engine.cpp line
241): follows the resolved size class. -/
def detect_amap (e : WatermarkEngine) (img : Image)
    (force_size : Option WatermarkSize) : OMap :=
  e.get_alpha_map (detect_size img force_size)

/-- Clamped ROI left edge `x1` (watermark_engine.cpp line 247). -/
def detect_x1 (img : Image) : Int := max 0 (detect_pos img).1

/-- Clamped ROI top edge `y1` (watermark_engine.cpp line 248). -/
def detect_y1 (img : Image) : Int := max 0 (detect_pos img).2

/-- Clamped ROI right edge `x2` (watermark_engine.cpp line 249). -/
def detect_x2 (e : WatermarkEngine) (img : Image)
    (force_size : Option WatermarkSize) : Int :=
  min (img.w : Int) ((detect_pos img).1 + (detect_amap e img force_size).w)

/-- Clamped ROI bottom edge `y2` (watermark_engine.cpp line 250). -/
def detect_y2 (e : WatermarkEngine) (img : Image)
    (force_size : Option WatermarkSize) : Int :=
  min (img.h : Int) ((detect_pos img).2 + (detect_amap e img force_size).h)

/-- The clamped image ROI rectangle (watermark_engine.cpp line 258). -/
def detect_image_roi (e : WatermarkEngine) (img : Image)
    (force_size : Option WatermarkSize) : Rect :=
  ⟨detect_x1 img, detect_y1 img,
   (detect_x2 e img force_size - detect_x1 img).toNat,
   (detect_y2 e img force_size - detect_y1 img).toNat⟩

/-- The corresponding alpha-map slice rectangle (watermark_engine.cpp line
273). -/
def detect_alpha_roi (e : WatermarkEngine) (img : Image)
    (force_size : Option WatermarkSize) : Rect :=
  ⟨detect_x1 img - (detect_pos img).1, detect_y1 img - (detect_pos img).2,
   (detect_x2 e img force_size - detect_x1 img).toNat,
   (detect_y2 e img force_size - detect_y1 img).toNat⟩

/-- Stage 1 spatial NCC peak (watermark_engine.cpp lines 280-284). -/
def detect_spatial (e : WatermarkEngine) (oc : DetectorOracles) (img : Image)
    (force_size : Option WatermarkSize) : ℚ :=
  oc.spatial_peak img (detect_image_roi e img force_size)
    (detect_amap e img force_size) (detect_alpha_roi e img force_size)

/-- Stage 2 gradient-domain NCC peak (watermark_engine.cpp lines
300-314). -/
def detect_grad (e : WatermarkEngine) (oc : DetectorOracles) (img : Image)
    (force_size : Option WatermarkSize) : ℚ :=
  oc.grad_peak img (detect_image_roi e img force_size)
    (detect_amap e img force_size) (detect_alpha_roi e img force_size)

/-- Reference-strip height `ref_h = min(y1, config.logo_size)`
(watermark_engine.cpp line 322). -/
def detect_ref_h (img : Image) : Int :=
  min (detect_y1 img) (detect_config img).logo_size

/-- Reference-strip rectangle immediately above the ROI
(watermark_engine.cpp line 326). -/
def detect_ref_roi (e : WatermarkEngine) (img : Image)
    (force_size : Option WatermarkSize) : Rect :=
  ⟨detect_x1 img, detect_y1 img - detect_ref_h img,
   (detect_x2 e img force_size - detect_x1 img).toNat, (detect_ref_h img).toNat⟩

/-- Stage 3 variance-dampening score (watermark_engine.cpp lines 321-344):
0 unless the reference strip is taller than 8 pixels and its standard
deviation exceeds 5.0, in which case
`clamp(1 - std(region)/std(reference), 0, 1)`. -/
def detect_var (e : WatermarkEngine) (oc : DetectorOracles) (img : Image)
    (force_size : Option WatermarkSize) : ℚ :=
  if 8 < detect_ref_h img then
    if 5 < oc.stddev_gray img (detect_ref_roi e img force_size) then
      clamp01 (1 - oc.stddev_gray img (detect_image_roi e img force_size)
                    / oc.stddev_gray img (detect_ref_roi e img force_size))
    else 0
  else 0

/-- Fused confidence (watermark_engine.cpp lines 350-355):
`clamp(spatial*0.50 + grad*0.30 + var*0.20, 0, 1)`. -/
def detect_conf (e : WatermarkEngine) (oc : DetectorOracles) (img : Image)
    (force_size : Option WatermarkSize) : ℚ :=
  clamp01 (detect_spatial e oc img force_size * (1/2)
    + detect_grad e oc img force_size * (3/10)
    + detect_var e oc img force_size * (1/5))

/-- The partial result built before the ROI check (watermark_engine.cpp
lines 243-244): size class and candidate region recorded on the
zero-initialized result. -/
def detect_r1 (e : WatermarkEngine) (img : Image)
    (force_size : Option WatermarkSize) : DetectionResult :=
  { zero_result with
    size := detect_size img force_size,
    region := ⟨(detect_pos img).1, (detect_pos img).2,
               (detect_amap e img force_size).w, (detect_amap e img force_size).h⟩ }

/-- `WatermarkEngine::detect_watermark` (watermark_engine.cpp lines
222-366), in SSA form over the named per-stage definitions above, paired
with the image buffer as the call leaves it (the method is `const` and
performs no in-place write, so every return site hands back the input
buffer): an empty image returns the zero result; a degenerate clamped ROI
returns the zero-confidence result with size and region filled in; a
spatial score below 0.25 hits the circuit breaker (confidence
`spatial*0.5`, not detected, later stages not evaluated); otherwise the
three scores are fused, clamped to [0,1] and compared to the 0.35
threshold. -/
def WatermarkEngine.detect_watermark (e : WatermarkEngine) (oc : DetectorOracles)
    (img : Image) (force_size : Option WatermarkSize) : DetectionResult × Image :=
  if img.isEmpty then (zero_result, img)
  else if detect_x2 e img force_size ≤ detect_x1 img ∨
          detect_y2 e img force_size ≤ detect_y1 img then
    (detect_r1 e img force_size, img)
  else if detect_spatial e oc img force_size < 1/4 then
    ({ detect_r1 e img force_size with
       spatial_score := detect_spatial e oc img force_size,
       confidence := detect_spatial e oc img force_size * (1/2) }, img)
  else
    ({ detect_r1 e img force_size with
       spatial_score := detect_spatial e oc img force_size,
       gradient_score := detect_grad e oc img force_size,
       variance_score := detect_var e oc img force_size,
       confidence := detect_conf e oc img force_size,
       detected := decide (7/20 ≤ detect_conf e oc img force_size) }, img)

/-- Concrete 2×2 three-channel image used in witnesses. -/
def img2 : Image := ⟨2, 2, 3, fun _ _ _ => 1/2⟩

/-- Concrete 1×1 opacity map used in witnesses. -/
def omap1 : OMap := ⟨1, 1, fun _ _ => 1/3⟩

/-- A concrete engine with canonical-dimension (48×48 and 96×96) opacity
maps, used in witnesses. -/
def engineD : WatermarkEngine :=
  ⟨⟨48, 48, fun _ _ => 0⟩, ⟨96, 96, fun _ _ => 0⟩, 1⟩

/-- Concrete oracles that measure 0 everywhere. -/
def oracle0 : DetectorOracles :=
  ⟨fun _ _ _ _ => 0, fun _ _ _ _ => 0, fun _ _ => 0⟩

/-- Concrete oracles with a negative (anti-correlated) spatial NCC peak. -/
def oracleNeg : DetectorOracles :=
  ⟨fun _ _ _ _ => -(1/2), fun _ _ _ _ => 0, fun _ _ => 0⟩

/-- Concrete oracles with spatial and gradient peaks of 1/2. -/
def oracleHigh : DetectorOracles :=
  ⟨fun _ _ _ _ => 1/2, fun _ _ _ _ => 1/2, fun _ _ => 0⟩

/-- Concrete 200×200 three-channel image (Small geometry). -/
def img200 : Image := ⟨200, 200, 3, fun _ _ _ => 1/2⟩

/-- Concrete 2000×2000 three-channel image (Large geometry). -/
def img2000 : Image := ⟨2000, 2000, 3, fun _ _ _ => 1/2⟩

/-- A concrete empty image buffer. -/
def emptyImg : Image := ⟨0, 0, 3, fun _ _ _ => 0⟩

/-- A 96×96 map with a single opaque pixel at the origin; its 2×2 area
average at the origin is 1/4. -/
def omapSpike : OMap := ⟨96, 96, fun y x => if y = 0 ∧ x = 0 then 1 else 0⟩

/-- A concrete engine whose Large map is `omapSpike` and whose Small map
is identically zero. -/
def engineC7 : WatermarkEngine := ⟨⟨48, 48, fun _ _ => 0⟩, omapSpike, 1⟩

/-- C9: size classification.  `get_watermark_size` returns `Large` exactly
when both dimensions strictly exceed 1024 and `Small` in every other case
(including 1024×1024), for all positive dimensions. -/
theorem classify_size (w h : Int) (hw : 0 < w) (hh : 0 < h) :
    (get_watermark_size w h = WatermarkSize.Large ↔ (1024 < w ∧ 1024 < h)) ∧
    (get_watermark_size w h = WatermarkSize.Small ↔ ¬(1024 < w ∧ 1024 < h)) := by
  unfold get_watermark_size
  split_ifs with hc <;> simp_all

/-- Witness for `classify_size` at the boundary input 1024×1024. -/
theorem classify_size_check :
    (0 : Int) < 1024 ∧ (0 : Int) < 1024 ∧
    ((get_watermark_size 1024 1024 = WatermarkSize.Large ↔ ((1024 : Int) < 1024 ∧ (1024 : Int) < 1024)) ∧
     (get_watermark_size 1024 1024 = WatermarkSize.Small ↔ ¬((1024 : Int) < 1024 ∧ (1024 : Int) < 1024))) :=
  ⟨by norm_num, by norm_num, classify_size 1024 1024 (by norm_num) (by norm_num)⟩

/-- C1: round-trip law of the compositor.  For every image, opacity map,
position fully inside the image bounds and foreground intensity `v`,
removing after applying with the same map, position and `v` reconstructs
the original image exactly (the exact-rational rendering of "to within
floating-point rounding"), provided every alpha value of the map differs
from 1. -/
theorem remove_add_roundtrip (img : Image) (m : OMap) (pos : Int × Int) (v : ℚ)
    (hx0 : 0 ≤ pos.1) (hy0 : 0 ≤ pos.2)
    (hxw : pos.1 + m.w ≤ (img.w : Int)) (hyh : pos.2 + m.h ≤ (img.h : Int))
    (halpha : ∀ y, y < m.h → ∀ x, x < m.w → m.val y x ≠ 1) :
    remove_watermark_alpha_blend (add_watermark_alpha_blend img m pos v) m pos v = img := by
  unfold remove_watermark_alpha_blend add_watermark_alpha_blend
  ext y x c
  · rfl
  · rfl
  · rfl
  simp only
  by_cases hc : pos.1 ≤ (x : Int) ∧ (x : Int) < pos.1 + m.w ∧
      pos.2 ≤ (y : Int) ∧ (y : Int) < pos.2 + m.h ∧
      x < img.w ∧ y < img.h ∧ c < 3
  · rw [if_pos hc, if_pos hc]
    obtain ⟨h1, h2, h3, h4, -, -, -⟩ := hc
    set a := m.val ((y : Int) - pos.2).toNat ((x : Int) - pos.1).toNat with ha
    have hyb : ((y : Int) - pos.2).toNat < m.h := by omega
    have hxb : ((x : Int) - pos.1).toNat < m.w := by omega
    have hane : a ≠ 1 := by
      rw [ha]; exact halpha _ hyb _ hxb
    have hsub : (1 : ℚ) - a ≠ 0 := sub_ne_zero.mpr (Ne.symm hane)
    field_simp
  · simp only [if_neg hc]

/-- Witness for `remove_add_roundtrip` at a concrete image, map, position
and intensity. -/
theorem remove_add_roundtrip_check :
    (0 ≤ (1 : Int)) ∧ (0 ≤ (1 : Int)) ∧
    ((1 : Int) + omap1.w ≤ (img2.w : Int)) ∧ ((1 : Int) + omap1.h ≤ (img2.h : Int)) ∧
    (∀ y, y < omap1.h → ∀ x, x < omap1.w → omap1.val y x ≠ 1) ∧
    remove_watermark_alpha_blend (add_watermark_alpha_blend img2 omap1 (1, 1) 1) omap1 (1, 1) 1 = img2 :=
  ⟨by norm_num, by norm_num, by decide, by decide,
   fun y hy x hx => by norm_num [omap1],
   remove_add_roundtrip img2 omap1 (1, 1) 1 (by norm_num) (by norm_num)
     (by decide) (by decide) (fun y hy x hx => by norm_num [omap1])⟩

/-- Path lemma: an empty image short-circuits detection to the zero
result. -/
lemma detect_eq_empty (e : WatermarkEngine) (oc : DetectorOracles) (img : Image)
    (force : Option WatermarkSize) (h : img.isEmpty = true) :
    e.detect_watermark oc img force = (zero_result, img) := by
  unfold WatermarkEngine.detect_watermark
  rw [if_pos h]

/-- Path lemma: a degenerate clamped ROI returns the zero-confidence
result with size and region recorded. -/
lemma detect_eq_degenerate (e : WatermarkEngine) (oc : DetectorOracles) (img : Image)
    (force : Option WatermarkSize) (h1 : img.isEmpty = false)
    (h2 : detect_x2 e img force ≤ detect_x1 img ∨
          detect_y2 e img force ≤ detect_y1 img) :
    e.detect_watermark oc img force = (detect_r1 e img force, img) := by
  unfold WatermarkEngine.detect_watermark
  rw [if_neg (by simp [h1]), if_pos h2]

/-- Path lemma: the circuit-breaker exit when the spatial score is below
0.25. -/
lemma detect_eq_breaker (e : WatermarkEngine) (oc : DetectorOracles) (img : Image)
    (force : Option WatermarkSize) (h1 : img.isEmpty = false)
    (h2 : ¬(detect_x2 e img force ≤ detect_x1 img ∨
            detect_y2 e img force ≤ detect_y1 img))
    (h3 : detect_spatial e oc img force < 1/4) :
    e.detect_watermark oc img force =
      ({ detect_r1 e img force with
         spatial_score := detect_spatial e oc img force,
         confidence := detect_spatial e oc img force * (1/2) }, img) := by
  unfold WatermarkEngine.detect_watermark
  rw [if_neg (by simp [h1]), if_neg h2, if_pos h3]

/-- Path lemma: the full three-stage fusion exit when the spatial score
reaches 0.25. -/
lemma detect_eq_fusion (e : WatermarkEngine) (oc : DetectorOracles) (img : Image)
    (force : Option WatermarkSize) (h1 : img.isEmpty = false)
    (h2 : ¬(detect_x2 e img force ≤ detect_x1 img ∨
            detect_y2 e img force ≤ detect_y1 img))
    (h3 : ¬(detect_spatial e oc img force < 1/4)) :
    e.detect_watermark oc img force =
      ({ detect_r1 e img force with
         spatial_score := detect_spatial e oc img force,
         gradient_score := detect_grad e oc img force,
         variance_score := detect_var e oc img force,
         confidence := detect_conf e oc img force,
         detected := decide (7/20 ≤ detect_conf e oc img force) }, img) := by
  unfold WatermarkEngine.detect_watermark
  rw [if_neg (by simp [h1]), if_neg h2, if_neg h3]

/-- C10: detection never modifies the supplied image buffer — every exit
path of `detect_watermark` hands back the input image with identical
dimensions, channel count and pixel values. -/
theorem detect_preserves_image (e : WatermarkEngine) (oc : DetectorOracles)
    (img : Image) (force : Option WatermarkSize) :
    (e.detect_watermark oc img force).2 = img := by
  unfold WatermarkEngine.detect_watermark
  split_ifs <;> rfl

/-- C5 (circuit breaker): when stage 1 runs (non-empty image, non-empty
clamped ROI) and its spatial score is strictly below 0.25, the returned
confidence equals `spatial_score * 0.5`, `detected` is false and the
gradient and variance stages are never evaluated — their reported scores
remain zero. -/
theorem detect_circuit_breaker (e : WatermarkEngine) (oc : DetectorOracles)
    (img : Image) (force : Option WatermarkSize)
    (h1 : img.isEmpty = false)
    (h2 : ¬(detect_x2 e img force ≤ detect_x1 img ∨
            detect_y2 e img force ≤ detect_y1 img))
    (h3 : detect_spatial e oc img force < 1/4) :
    (e.detect_watermark oc img force).1.confidence =
      detect_spatial e oc img force * (1/2) ∧
    (e.detect_watermark oc img force).1.detected = false ∧
    (e.detect_watermark oc img force).1.gradient_score = 0 ∧
    (e.detect_watermark oc img force).1.variance_score = 0 := by
  rw [detect_eq_breaker e oc img force h1 h2 h3]
  exact ⟨rfl, rfl, rfl, rfl⟩

/-- Witness for `detect_circuit_breaker` at a concrete engine, zero
oracles and a 200×200 image. -/
theorem detect_circuit_breaker_check :
    img200.isEmpty = false ∧
    ¬(detect_x2 engineD img200 none ≤ detect_x1 img200 ∨
      detect_y2 engineD img200 none ≤ detect_y1 img200) ∧
    detect_spatial engineD oracle0 img200 none < 1/4 ∧
    ((engineD.detect_watermark oracle0 img200 none).1.confidence =
       detect_spatial engineD oracle0 img200 none * (1/2) ∧
     (engineD.detect_watermark oracle0 img200 none).1.detected = false ∧
     (engineD.detect_watermark oracle0 img200 none).1.gradient_score = 0 ∧
     (engineD.detect_watermark oracle0 img200 none).1.variance_score = 0) :=
  ⟨rfl, by decide, by norm_num [detect_spatial, oracle0],
   detect_circuit_breaker engineD oracle0 img200 none rfl (by decide)
     (by norm_num [detect_spatial, oracle0])⟩

/-- C6 (fusion): when stage 1 runs and its spatial score is at least
0.25, the returned confidence is
`clamp(spatial_score*0.50 + gradient_score*0.30 + variance_score*0.20, 0, 1)`
over the result's reported scores, and `detected` holds exactly when that
confidence is at least 0.35. -/
theorem detect_fusion (e : WatermarkEngine) (oc : DetectorOracles)
    (img : Image) (force : Option WatermarkSize)
    (h1 : img.isEmpty = false)
    (h2 : ¬(detect_x2 e img force ≤ detect_x1 img ∨
            detect_y2 e img force ≤ detect_y1 img))
    (h3 : ¬(detect_spatial e oc img force < 1/4)) :
    (e.detect_watermark oc img force).1.confidence =
      clamp01 ((e.detect_watermark oc img force).1.spatial_score * (1/2)
        + (e.detect_watermark oc img force).1.gradient_score * (3/10)
        + (e.detect_watermark oc img force).1.variance_score * (1/5)) ∧
    ((e.detect_watermark oc img force).1.detected = true ↔
      7/20 ≤ (e.detect_watermark oc img force).1.confidence) := by
  rw [detect_eq_fusion e oc img force h1 h2 h3]
  refine ⟨rfl, ?_⟩
  show decide (7/20 ≤ detect_conf e oc img force) = true ↔
    7/20 ≤ detect_conf e oc img force
  exact decide_eq_true_iff

/-- Witness for `detect_fusion` at a concrete engine, half-scoring
oracles and a 200×200 image. -/
theorem detect_fusion_check :
    img200.isEmpty = false ∧
    ¬(detect_x2 engineD img200 none ≤ detect_x1 img200 ∨
      detect_y2 engineD img200 none ≤ detect_y1 img200) ∧
    ¬(detect_spatial engineD oracleHigh img200 none < 1/4) ∧
    ((engineD.detect_watermark oracleHigh img200 none).1.confidence =
       clamp01 ((engineD.detect_watermark oracleHigh img200 none).1.spatial_score * (1/2)
         + (engineD.detect_watermark oracleHigh img200 none).1.gradient_score * (3/10)
         + (engineD.detect_watermark oracleHigh img200 none).1.variance_score * (1/5)) ∧
     ((engineD.detect_watermark oracleHigh img200 none).1.detected = true ↔
       7/20 ≤ (engineD.detect_watermark oracleHigh img200 none).1.confidence)) :=
  ⟨rfl, by decide, by norm_num [detect_spatial, oracleHigh],
   detect_fusion engineD oracleHigh img200 none rfl (by decide)
     (by norm_num [detect_spatial, oracleHigh])⟩

/-- Counterexample to C3: on the circuit-breaker path the reported
confidence is `spatial_score * 0.5`, and the `TM_CCOEFF_NORMED` peak can
be negative (anti-correlated region); with a spatial peak of -1/2 the
returned confidence is -1/4, outside [0,1]. -/
theorem detect_confidence_negative_cx :
    (engineD.detect_watermark oracleNeg img200 none).1.confidence < 0 := by
  rw [detect_eq_breaker engineD oracleNeg img200 none rfl (by decide)
    (by norm_num [detect_spatial, oracleNeg])]
  show detect_spatial engineD oracleNeg img200 none * (1/2) < 0
  norm_num [detect_spatial, oracleNeg]

/-- C3 as amended: for every detection call whose spatial NCC peak is at
least -1 (the lower bound of a normalized cross-correlation), the
returned confidence lies in [-0.5, 1]; it is only the circuit-breaker
path with a negative spatial score that can leave [0, 1]. -/
theorem detect_confidence_range (e : WatermarkEngine) (oc : DetectorOracles)
    (img : Image) (force : Option WatermarkSize)
    (h : -1 ≤ detect_spatial e oc img force) :
    -(1/2) ≤ (e.detect_watermark oc img force).1.confidence ∧
    (e.detect_watermark oc img force).1.confidence ≤ 1 := by
  by_cases h1 : img.isEmpty = true
  · rw [detect_eq_empty e oc img force h1]
    constructor
    · show -(1/2 : ℚ) ≤ 0
      norm_num
    · show (0 : ℚ) ≤ 1
      norm_num
  · have h1f : img.isEmpty = false := by
      cases hb : img.isEmpty
      · rfl
      · exact absurd hb h1
    by_cases h2 : detect_x2 e img force ≤ detect_x1 img ∨
        detect_y2 e img force ≤ detect_y1 img
    · rw [detect_eq_degenerate e oc img force h1f h2]
      constructor
      · show -(1/2 : ℚ) ≤ 0
        norm_num
      · show (0 : ℚ) ≤ 1
        norm_num
    · by_cases h3 : detect_spatial e oc img force < 1/4
      · rw [detect_eq_breaker e oc img force h1f h2 h3]
        constructor
        · show -(1/2) ≤ detect_spatial e oc img force * (1/2)
          linarith
        · show detect_spatial e oc img force * (1/2) ≤ 1
          linarith
      · rw [detect_eq_fusion e oc img force h1f h2 h3]
        constructor
        · show -(1/2) ≤ detect_conf e oc img force
          have h0 : (0 : ℚ) ≤ detect_conf e oc img force := by
            unfold detect_conf clamp01
            split_ifs <;> linarith
          linarith
        · show detect_conf e oc img force ≤ 1
          unfold detect_conf clamp01
          split_ifs <;> linarith

/-- Witness for `detect_confidence_range` at a concrete engine, zero
oracles and a 200×200 image. -/
theorem detect_confidence_range_check :
    -1 ≤ detect_spatial engineD oracle0 img200 none ∧
    (-(1/2) ≤ (engineD.detect_watermark oracle0 img200 none).1.confidence ∧
     (engineD.detect_watermark oracle0 img200 none).1.confidence ≤ 1) :=
  ⟨by norm_num [detect_spatial, oracle0],
   detect_confidence_range engineD oracle0 img200 none
     (by norm_num [detect_spatial, oracle0])⟩

/-- Counterexample to C2: on a 2000×2000 image (geometric class Large)
with an explicit Small override, the detection region's top-left corner
is (1840, 1840) — computed from the geometry class's margins (64) and
footprint (96) — not (1920, 1920) = (2000-32-48, 2000-32-48) as the
overridden class's placement would give, even though its 48×48 extent
does follow the override. -/
theorem detect_region_override_cx :
    (engineD.detect_watermark oracle0 img2000 (some WatermarkSize.Small)).1.region =
      ⟨1840, 1840, 48, 48⟩ ∧
    ¬((engineD.detect_watermark oracle0 img2000 (some WatermarkSize.Small)).1.region =
      ⟨(2000 : Int) - 32 - 48, (2000 : Int) - 32 - 48, 48, 48⟩) := by
  have hr : (engineD.detect_watermark oracle0 img2000 (some WatermarkSize.Small)).1.region =
      ⟨1840, 1840, 48, 48⟩ := by
    rw [detect_eq_breaker engineD oracle0 img2000 (some WatermarkSize.Small) rfl
      (by decide) (by norm_num [detect_spatial, oracle0])]
    decide
  refine ⟨hr, ?_⟩
  rw [hr]
  decide

/-- C2 as amended: for every non-empty image and explicit size override,
the detection region's width and height equal the overridden class's
footprint (48 for Small, 96 for Large, given canonical-dimension maps),
but its top-left corner is computed from the image-geometry class
returned by `get_watermark_config` (its margins and footprint), not from
the overridden class's placement. -/
theorem detect_region_override (e : WatermarkEngine) (oc : DetectorOracles)
    (img : Image) (o : WatermarkSize)
    (hsw : e.alpha_map_small.w = 48) (hsh : e.alpha_map_small.h = 48)
    (hlw : e.alpha_map_large.w = 96) (hlh : e.alpha_map_large.h = 96)
    (hne : img.isEmpty = false) :
    (e.detect_watermark oc img (some o)).1.region =
      ⟨(img.w : Int) - (detect_config img).margin_right - (detect_config img).logo_size,
       (img.h : Int) - (detect_config img).margin_bottom - (detect_config img).logo_size,
       (if o = WatermarkSize.Small then 48 else 96),
       (if o = WatermarkSize.Small then 48 else 96)⟩ := by
  have hr : (e.detect_watermark oc img (some o)).1.region =
      (detect_r1 e img (some o)).region := by
    unfold WatermarkEngine.detect_watermark
    split_ifs with h1 h2 h3
    · exact absurd h1 (by simp [hne])
    · rfl
    · rfl
    · rfl
  rw [hr]
  unfold detect_r1 detect_pos WatermarkPosition.get_position detect_amap
    detect_size WatermarkEngine.get_alpha_map
  cases o <;> simp [hsw, hsh, hlw, hlh]

/-- Witness for `detect_region_override` at a concrete engine and a
2000×2000 image with a Small override. -/
theorem detect_region_override_check :
    engineD.alpha_map_small.w = 48 ∧ engineD.alpha_map_small.h = 48 ∧
    engineD.alpha_map_large.w = 96 ∧ engineD.alpha_map_large.h = 96 ∧
    img2000.isEmpty = false ∧
    (engineD.detect_watermark oracle0 img2000 (some WatermarkSize.Small)).1.region =
      ⟨(img2000.w : Int) - (detect_config img2000).margin_right - (detect_config img2000).logo_size,
       (img2000.h : Int) - (detect_config img2000).margin_bottom - (detect_config img2000).logo_size,
       (if WatermarkSize.Small = WatermarkSize.Small then 48 else 96),
       (if WatermarkSize.Small = WatermarkSize.Small then 48 else 96)⟩ :=
  ⟨rfl, rfl, rfl, rfl, rfl,
   detect_region_override engineD oracle0 img2000 WatermarkSize.Small
     rfl rfl rfl rfl rfl⟩

/-- Counterexample to C4: on an empty image buffer, `detect_watermark`
returns the zero-confidence `DetectionResult` as a normal result — it
does not fail with an error the way `remove_watermark` does on the same
input. -/
theorem empty_input_detect_cx :
    engineD.detect_watermark oracle0 emptyImg none = (zero_result, emptyImg) ∧
    engineD.remove_watermark emptyImg none = Except.error "Empty image provided" := by
  constructor
  · exact detect_eq_empty engineD oracle0 emptyImg none rfl
  · unfold WatermarkEngine.remove_watermark
    rw [if_pos (show emptyImg.isEmpty = true from rfl)]

/-- C4 as amended: on an empty input image buffer the four compositing
entry points (`remove_watermark`, `add_watermark` and their custom-region
variants) fail with the explicit error "Empty image provided", before any
mutation; `detect_watermark` instead returns the zero-confidence result
normally, with the image untouched. -/
theorem empty_input_behavior (e : WatermarkEngine) (oc : DetectorOracles)
    (img : Image) (force : Option WatermarkSize) (region : Rect)
    (h : img.isEmpty = true) :
    e.remove_watermark img force = Except.error "Empty image provided" ∧
    e.add_watermark img force = Except.error "Empty image provided" ∧
    e.remove_watermark_custom img region = Except.error "Empty image provided" ∧
    e.add_watermark_custom img region = Except.error "Empty image provided" ∧
    e.detect_watermark oc img force = (zero_result, img) := by
  refine ⟨?_, ?_, ?_, ?_, detect_eq_empty e oc img force h⟩
  · unfold WatermarkEngine.remove_watermark
    rw [if_pos h]
  · unfold WatermarkEngine.add_watermark
    rw [if_pos h]
  · unfold WatermarkEngine.remove_watermark_custom
    rw [if_pos h]
  · unfold WatermarkEngine.add_watermark_custom
    rw [if_pos h]

/-- Witness for `empty_input_behavior` at a concrete empty image. -/
theorem empty_input_behavior_check :
    emptyImg.isEmpty = true ∧
    (engineD.remove_watermark emptyImg none = Except.error "Empty image provided" ∧
     engineD.add_watermark emptyImg none = Except.error "Empty image provided" ∧
     engineD.remove_watermark_custom emptyImg ⟨0, 0, 48, 48⟩ = Except.error "Empty image provided" ∧
     engineD.add_watermark_custom emptyImg ⟨0, 0, 48, 48⟩ = Except.error "Empty image provided" ∧
     engineD.detect_watermark oracle0 emptyImg none = (zero_result, emptyImg)) :=
  ⟨rfl, empty_input_behavior engineD oracle0 emptyImg none ⟨0, 0, 48, 48⟩ rfl⟩

/-- Counterexample to C7: `create_interpolated_alpha(48, 48)` is an area
downsample of the Large canonical map, not the canonical Small map — for
the concrete engine `engineC7` the resampled map has value 1/4 at the
origin while the canonical Small map has 0 there, so the two maps
differ. -/
theorem resample_small_cx :
    (engineC7.create_interpolated_alpha 48 48).val 0 0 = 1/4 ∧
    engineC7.alpha_map_small.val 0 0 = 0 ∧
    engineC7.create_interpolated_alpha 48 48 ≠ engineC7.alpha_map_small := by
  have h1 : (engineC7.create_interpolated_alpha 48 48).val 0 0 = 1/4 := by
    norm_num [WatermarkEngine.create_interpolated_alpha, engineC7, omapSpike,
      resize_area, Finset.sum_range_succ]
  refine ⟨h1, rfl, fun heq => ?_⟩
  have h2 := congrArg (fun m => m.val 0 0) heq
  simp only at h2
  rw [h1] at h2
  have h3 : engineC7.alpha_map_small.val 0 0 = 0 := rfl
  rw [h3] at h2
  norm_num at h2

/-- C7 as amended: only a target size equal to the source (Large) map's
96×96 dimensions returns that canonical map unchanged; a 48×48 request
is genuinely resampled (area averaging) from the Large map rather than
returning the canonical Small map. -/
theorem resample_canonical (e : WatermarkEngine)
    (hlw : e.alpha_map_large.w = 96) (hlh : e.alpha_map_large.h = 96) :
    e.create_interpolated_alpha 96 96 = e.alpha_map_large ∧
    e.create_interpolated_alpha 48 48 = resize_area e.alpha_map_large 48 48 := by
  constructor
  · unfold WatermarkEngine.create_interpolated_alpha
    rw [if_pos ⟨hlw.symm, hlh.symm⟩]
  · unfold WatermarkEngine.create_interpolated_alpha
    rw [if_neg (by omega), if_neg (by omega)]

/-- Witness for `resample_canonical` at the concrete engine `engineD`. -/
theorem resample_canonical_check :
    engineD.alpha_map_large.w = 96 ∧ engineD.alpha_map_large.h = 96 ∧
    (engineD.create_interpolated_alpha 96 96 = engineD.alpha_map_large ∧
     engineD.create_interpolated_alpha 48 48 = resize_area engineD.alpha_map_large 48 48) :=
  ⟨rfl, rfl, resample_canonical engineD rfl rfl⟩

/-- C8: for every non-empty image, the custom-region entry points blend
with the canonical Small map for an exact 48×48 region, the canonical
Large map for an exact 96×96 region (verbatim, no resampling in either
case), and a map resampled from the Large canonical map to the region's
exact size for every other region; the last two conjuncts record that the
resampled map indeed has the region's dimensions. -/
theorem custom_region_selection (e : WatermarkEngine) (img : Image) (r : Rect)
    (h : img.isEmpty = false) :
    e.remove_watermark_custom img r =
      Except.ok (remove_watermark_alpha_blend (ensure_bgr img)
        (if r.w = 48 ∧ r.h = 48 then e.alpha_map_small
         else if r.w = 96 ∧ r.h = 96 then e.alpha_map_large
         else e.create_interpolated_alpha r.w r.h) (r.x, r.y) e.logo_value) ∧
    e.add_watermark_custom img r =
      Except.ok (add_watermark_alpha_blend (ensure_bgr img)
        (if r.w = 48 ∧ r.h = 48 then e.alpha_map_small
         else if r.w = 96 ∧ r.h = 96 then e.alpha_map_large
         else e.create_interpolated_alpha r.w r.h) (r.x, r.y) e.logo_value) ∧
    (e.create_interpolated_alpha r.w r.h).w = r.w ∧
    (e.create_interpolated_alpha r.w r.h).h = r.h := by
  refine ⟨?_, ?_, ?_, ?_⟩
  · unfold WatermarkEngine.remove_watermark_custom
    rw [if_neg (by simp [h])]
    split_ifs <;> rfl
  · unfold WatermarkEngine.add_watermark_custom
    rw [if_neg (by simp [h])]
    split_ifs <;> rfl
  · unfold WatermarkEngine.create_interpolated_alpha
    split_ifs with h1 h2
    · omega
    · rfl
    · rfl
  · unfold WatermarkEngine.create_interpolated_alpha
    split_ifs with h1 h2
    · omega
    · rfl
    · rfl

/-- Witness for `custom_region_selection` at a concrete engine, image and
48×48 region. -/
theorem custom_region_selection_check :
    img200.isEmpty = false ∧
    (engineD.remove_watermark_custom img200 ⟨10, 10, 48, 48⟩ =
       Except.ok (remove_watermark_alpha_blend (ensure_bgr img200)
         (if (48 : Nat) = 48 ∧ (48 : Nat) = 48 then engineD.alpha_map_small
          else if (48 : Nat) = 96 ∧ (48 : Nat) = 96 then engineD.alpha_map_large
          else engineD.create_interpolated_alpha 48 48) (10, 10) engineD.logo_value) ∧
     engineD.add_watermark_custom img200 ⟨10, 10, 48, 48⟩ =
       Except.ok (add_watermark_alpha_blend (ensure_bgr img200)
         (if (48 : Nat) = 48 ∧ (48 : Nat) = 48 then engineD.alpha_map_small
          else if (48 : Nat) = 96 ∧ (48 : Nat) = 96 then engineD.alpha_map_large
          else engineD.create_interpolated_alpha 48 48) (10, 10) engineD.logo_value) ∧
     (engineD.create_interpolated_alpha 48 48).w = 48 ∧
     (engineD.create_interpolated_alpha 48 48).h = 48) :=
  ⟨rfl, custom_region_selection engineD img200 ⟨10, 10, 48, 48⟩ rfl⟩

end GWT
